import Mathlib

set_option maxRecDepth 8192

namespace ZaloRec

/-
Shallow embedding of the zalo-recorder-app core (src/main.js, src/renderer.js).
JavaScript strings are modelled as `List Char`; the string operations the code
uses (split, trim, includes, parseInt, parseFloat, replace) are defined below
with the same semantics on the inputs the code feeds them.
-/

/-- Character-list analogue of a JavaScript startsWith test. -/
def startsWithChars : List Char → List Char → Bool
  | [], _ => true
  | _ :: _, [] => false
  | p :: ps, c :: cs => p == c && startsWithChars ps cs

/-- Character-list analogue of JavaScript String.includes (substring test). -/
def hasSub (pat : List Char) : List Char → Bool
  | [] => startsWithChars pat []
  | c :: cs => startsWithChars pat (c :: cs) || hasSub pat cs

/-- Character-list analogue of JavaScript String.trim. -/
def trimChars (cs : List Char) : List Char :=
  ((cs.dropWhile Char.isWhitespace).reverse.dropWhile Char.isWhitespace).reverse

/-- Split a character list on a separator character, like JavaScript split(sep).
The result is never empty: splitting the empty list yields one empty piece. -/
def splitOnCharSep (sep : Char) : List Char → List (List Char)
  | [] => [[]]
  | c :: cs =>
    if c == sep then [] :: splitOnCharSep sep cs
    else
      match splitOnCharSep sep cs with
      | [] => [[c]]
      | l :: ls => (c :: l) :: ls

/-- Helper for `wsTokens`: accumulates the current (reversed) token. -/
def wsTokensAux (cur : List Char) : List Char → List (List Char)
  | [] => if cur.isEmpty then [] else [cur.reverse]
  | c :: cs =>
    if c.isWhitespace then
      if cur.isEmpty then wsTokensAux [] cs
      else cur.reverse :: wsTokensAux [] cs
    else wsTokensAux (c :: cur) cs

/-- Tokens of a character list separated by runs of whitespace: the analogue of
a JavaScript split on one-or-more-whitespace applied to a trimmed string. -/
def wsTokens (cs : List Char) : List (List Char) :=
  wsTokensAux [] cs

/-- Numeric value of a list of decimal digit characters. -/
def digitsVal (ds : List Char) : Nat :=
  ds.foldl (fun a c => a * 10 + (c.toNat - 48)) 0

/-- JavaScript parseInt restricted to the decimal inputs the app feeds it:
leading whitespace skipped, optional sign, then a maximal run of digits;
`none` models NaN (no digits found). Hexadecimal input is not modelled
because the process-table and config values are decimal. -/
def jsParseInt (cs : List Char) : Option Int :=
  let t := (trimChars cs)
  match t with
  | '-' :: rest =>
    let ds := rest.takeWhile Char.isDigit
    if ds.isEmpty then none else some (-(digitsVal ds : Int))
  | '+' :: rest =>
    let ds := rest.takeWhile Char.isDigit
    if ds.isEmpty then none else some ((digitsVal ds : Int))
  | _ =>
    let ds := t.takeWhile Char.isDigit
    if ds.isEmpty then none else some ((digitsVal ds : Int))

/-- JavaScript parseFloat restricted to plain decimal notation (optional sign,
integer digits, optional fractional digits); `none` models NaN. Exponent
notation is not modelled because the performance-counter output is plain
decimal. -/
def jsParseFloat (cs : List Char) : Option Rat :=
  let t := trimChars cs
  let core : List Char → Option Rat := fun u =>
    let intDs := u.takeWhile Char.isDigit
    let rest := u.dropWhile Char.isDigit
    let fracDs :=
      match rest with
      | '.' :: more => more.takeWhile Char.isDigit
      | _ => []
    if intDs.isEmpty && fracDs.isEmpty then none
    else some ((digitsVal intDs : Rat) + (digitsVal fracDs : Rat) / (10 : Rat) ^ fracDs.length)
  match t with
  | '-' :: rest => (core rest).map (fun q => -q)
  | '+' :: rest => core rest
  | _ => core t

/-
ProcessSampler (src/main.js, checkZaloMemory lines 634-684 and checkZaloCPU
lines 610-632). The external `exec` call is modelled by its outcome: `none`
when the query tool errored, `some stdout` when it produced output.
-/

/-- Lowercased process-image name the memory sampler looks for. -/
def zaloImageName : List Char := "zalocall.exe".data

/-- Test from line 660 of main.js: the row mentions the target process. -/
def lineMatchesZalo (line : List Char) : Bool :=
  hasSub zaloImageName (line.map Char.toLower)

/-- Memory column extraction from lines 667-668 of main.js: trim the row,
split on whitespace, drop the first four columns, rejoin with spaces. -/
def memUsageField (line : List Char) : List Char :=
  List.intercalate [' '] ((wsTokens (trimChars line)).drop 4)

/-- Character removal from line 670 of main.js: delete commas and the unit
letter K (case-insensitively). -/
def stripCommasK (cs : List Char) : List Char :=
  cs.filter (fun c => !(c == ',' || c == 'K' || c == 'k'))

/-- Memory sampler checkZaloMemory (main.js lines 634-684): on tool error,
missing row, or unparseable memory column it resolves 0. The guard on an
empty line array in the source is unreachable because a split always yields
at least one piece. -/
def checkZaloMemory (execResult : Option String) : Int :=
  match execResult with
  | none => 0
  | some stdout =>
    let lines := splitOnCharSep '\n' stdout.data
    match lines.find? lineMatchesZalo with
    | none => 0
    | some line =>
      match jsParseInt (stripCommasK (memUsageField line)) with
      | none => 0
      | some m => m

/-- CPU sampler checkZaloCPU (main.js lines 610-632): on tool error, fewer
than three output lines, or an unparseable counter value it resolves 0. -/
def checkZaloCPU (execResult : Option String) : Rat :=
  match execResult with
  | none => 0
  | some stdout =>
    let lines := splitOnCharSep '\n' (trimChars stdout.data)
    if 3 ≤ lines.length then
      match lines.drop 1 with
      | [] => 0
      | l :: _ =>
        let lastLine := l.filter (fun c => !(c == '"'))
        let parts := splitOnCharSep ',' lastLine
        match parts.drop 1 with
        | [] => 0
        | p :: _ => (jsParseFloat p).getD 0
    else 0

/-
CallStateDetector (src/main.js, checkZaloCallStatusMemory lines 550-554,
with the process-absent case decided by isZaloRunning in the monitoring
loop, lines 571-579).
-/

/-- In-call verdict of checkZaloCallStatusMemory (main.js line 552): the
sampled memory strictly exceeds the threshold. -/
def checkZaloCallStatusMemory (memory threshold : Int) : Bool :=
  decide (memory > threshold)

/-- Derived call state per sample. -/
inductive CallState where
  | NotRunning
  | Idle
  | InCall
  deriving DecidableEq, Repr

/-- Classification combining isZaloRunning (monitor loop, main.js lines
571-579) with the memory verdict of line 552. -/
def classify (zaloRunning : Bool) (memory threshold : Int) : CallState :=
  if !zaloRunning then CallState.NotRunning
  else if checkZaloCallStatusMemory memory threshold then CallState.InCall
  else CallState.Idle

/-
Shared API client callApi (src/main.js lines 305-352). The axios transport is
modelled by its outcome; the try/catch structure of the source is kept: the
body may raise (modelled with Except), the catch turns any raised error into
an ordinary return value, so the promise resolves in every case.
-/

/-- Outcome of the underlying HTTP transport for one request. -/
inductive ApiOutcome (α : Type) where
  | ok (respData : α)
  | transportError (e : String)
  deriving DecidableEq, Repr

/-- Value a callApi promise resolves with. -/
inductive CallApiResult (α : Type) where
  | respData (d : α)
  | urlNotSet
  | errorObject (e : String)
  deriving DecidableEq, Repr

/-- Full-URL test from main.js line 308. -/
def isFullUrl (endpoint : String) : Bool :=
  startsWithChars "http://".data endpoint.data || startsWithChars "https://".data endpoint.data

/-- Invalid-base-URL test from main.js line 311: the URL is falsy (empty) or
contains the text undefined. -/
def apiUrlInvalid (apiUrl : String) : Bool :=
  apiUrl.data.isEmpty || hasSub "undefined".data apiUrl.data

/-- The axios call: raises (Except.error) exactly when the transport fails. -/
def axiosRequest (t : ApiOutcome α) : Except String α :=
  match t with
  | ApiOutcome.ok d => Except.ok d
  | ApiOutcome.transportError e => Except.error e

/-- callApi (main.js lines 305-352). An Except.error result would model a
rejected promise; the source's catch clause returns the caught error object
instead, so the function always yields Except.ok. -/
def callApi (apiUrl endpoint : String) (t : ApiOutcome α) : Except String (CallApiResult α) :=
  let body : Except String (CallApiResult α) :=
    if !isFullUrl endpoint && apiUrlInvalid apiUrl then
      Except.ok CallApiResult.urlNotSet
    else
      match axiosRequest t with
      | Except.ok d => Except.ok (CallApiResult.respData d)
      | Except.error e => Except.error e
  match body with
  | Except.ok r => Except.ok r
  | Except.error e => Except.ok (CallApiResult.errorObject e)

/-
File-system model shared by the save-file and upload-file handlers: a list of
(path, size-in-bytes) entries.
-/

/-- The modelled file system: existing files with their sizes. -/
abbrev Fs := List (String × Nat)

/-- Existence test (fs.existsSync). -/
def fsExists (fs : Fs) (p : String) : Bool :=
  fs.any (fun e => e.1 == p)

/-- Size lookup (fs.statSync().size); 0 when absent (never consulted then). -/
def fsSize (fs : Fs) (p : String) : Nat :=
  match fs.find? (fun e => e.1 == p) with
  | some e => e.2
  | none => 0

/-- File write (fs.writeFileSync): replaces any previous entry. -/
def fsWrite (fs : Fs) (p : String) (n : Nat) : Fs :=
  (p, n) :: fs.filter (fun e => !(e.1 == p))

/-- File deletion (fs.unlinkSync). -/
def fsDelete (fs : Fs) (p : String) : Fs :=
  fs.filter (fun e => !(e.1 == p))

/-
ConversionStage convertToMP3 (src/main.js lines 859-925). The state of the
world the function consults is captured by ConvWorld; the promise either
rejects with an error message or resolves with the output path.
-/

/-- World convertToMP3 observes: input checks before the tool runs, the tool
invocation outcome, and the output checks after it ran. -/
structure ConvWorld where
  inputExists : Bool
  inputSize : Nat
  ffmpegExists : Bool
  execOk : Bool
  outputExistsAfter : Bool
  outputSizeAfter : Nat
  deriving DecidableEq, Repr

/-- Result of the convertToMP3 promise. -/
inductive ConvResult where
  | rejected (msg : String)
  | resolved (outPath : String)
  deriving DecidableEq, Repr

/-- convertToMP3 (main.js lines 859-925), branch for branch: missing input,
empty input, missing tool, tool error, missing output, empty output each
reject; otherwise the promise resolves with the output path. -/
def convertToMP3 (inputPath outputPath : String) (w : ConvWorld) : ConvResult :=
  if !w.inputExists then ConvResult.rejected ("Input file not found: " ++ inputPath)
  else if w.inputSize == 0 then ConvResult.rejected "Input file is empty"
  else if !w.ffmpegExists then ConvResult.rejected "FFmpeg not found"
  else if !w.execOk then ConvResult.rejected "FFmpeg execution failed"
  else if !w.outputExistsAfter then ConvResult.rejected "Output file was not created"
  else if w.outputSizeAfter == 0 then ConvResult.rejected "Output file is empty"
  else ConvResult.resolved outputPath

/-
The save-file IPC handler (src/main.js lines 1111-1210): decode the payload,
write the temporary webm file, convert it to mp3, delete the temporary file
whether the conversion succeeded or failed, and return the mp3 path.
-/

/-- Environment of one save-file invocation. execOutcome is none when the
tool process errored, some out when it exited cleanly, with out the size of
the output file it created (none when it created no output). -/
structure SaveEnv where
  dataUrlValid : Bool
  hasBase64Payload : Bool
  bufferLen : Nat
  ffmpegExists : Bool
  execOutcome : Option (Option Nat)
  deriving DecidableEq, Repr

/-- Result of the save-file handler promise. -/
inductive SaveOutcome where
  | thrown (msg : String)
  | saved (path : String) (sizeBytes : Nat)
  deriving DecidableEq, Repr

/-- ConvWorld induced by a save-file invocation whose temp file lives in fs. -/
def convWorldOf (fs : Fs) (tempPath : String) (env : SaveEnv) : ConvWorld :=
  { inputExists := fsExists fs tempPath
    inputSize := fsSize fs tempPath
    ffmpegExists := env.ffmpegExists
    execOk := env.execOutcome.isSome
    outputExistsAfter :=
      match env.execOutcome with
      | some (some _) => true
      | _ => false
    outputSizeAfter :=
      match env.execOutcome with
      | some (some n) => n
      | _ => 0 }

/-- The tool only runs (and can create output) when the pre-checks of
convertToMP3 pass; mirrors the early rejects of main.js lines 859-884. -/
def convToolRuns (fs : Fs) (tempPath : String) (env : SaveEnv) : Bool :=
  fsExists fs tempPath && !(fsSize fs tempPath == 0) && env.ffmpegExists

/-- File system after the temp write and the tool invocation of one
save-file run: the output file appears only when the tool actually ran and
created it. -/
def fsAfterConv (tempPath mp3Path : String) (env : SaveEnv) (fs0 : Fs) : Fs :=
  if convToolRuns (fsWrite fs0 tempPath env.bufferLen) tempPath env then
    match env.execOutcome with
    | some (some n) => fsWrite (fsWrite fs0 tempPath env.bufferLen) mp3Path n
    | _ => fsWrite fs0 tempPath env.bufferLen
  else fsWrite fs0 tempPath env.bufferLen

/-- save-file handler (main.js lines 1111-1210). Validation failures throw
before any file is written; after the temp write, a failed conversion deletes
the temp file and rethrows (lines 1177-1188), a successful conversion deletes
the temp file and returns the mp3 path and size (lines 1190-1205). -/
def saveFile (tempPath mp3Path : String) (env : SaveEnv) (fs0 : Fs) : SaveOutcome × Fs :=
  if !env.dataUrlValid then (SaveOutcome.thrown "Invalid dataUrl format", fs0)
  else if !env.hasBase64Payload then (SaveOutcome.thrown "Invalid dataUrl: no base64 data found", fs0)
  else if env.bufferLen == 0 then (SaveOutcome.thrown "Buffer is empty", fs0)
  else
    match convertToMP3 tempPath mp3Path (convWorldOf (fsWrite fs0 tempPath env.bufferLen) tempPath env) with
    | ConvResult.rejected m =>
      (SaveOutcome.thrown m, fsDelete (fsAfterConv tempPath mp3Path env fs0) tempPath)
    | ConvResult.resolved _p =>
      if fsExists (fsDelete (fsAfterConv tempPath mp3Path env fs0) tempPath) mp3Path then
        (SaveOutcome.saved mp3Path
          (fsSize (fsDelete (fsAfterConv tempPath mp3Path env fs0) tempPath) mp3Path),
          fsDelete (fsAfterConv tempPath mp3Path env fs0) tempPath)
      else
        (SaveOutcome.thrown "Failed to get file stats",
          fsDelete (fsAfterConv tempPath mp3Path env fs0) tempPath)

/-
The upload-file IPC handler (src/main.js lines 1212-1286): request a presigned
destination, PUT the file bytes to it, POST a history record, and delete the
local file when the history call reports success. The PUT is issued through
callApi and its returned value is not inspected by the handler.
-/

/-- Presign response body: data carries presignUrl and url, code is checked
against 200. -/
structure PresignResp where
  code : Int
  presignUrl : String
  url : String
  deriving DecidableEq, Repr

/-- History-commit response body. -/
structure HistoryResp where
  success : Bool
  deriving DecidableEq, Repr

/-- Environment of one upload-file invocation: configured URLs and the
transport outcome of each of the three network calls. -/
structure UploadEnv where
  apiUploadUrl : String
  uploadApi : String
  apiUrl : String
  saveHistoryApi : String
  presignTransport : ApiOutcome PresignResp
  putTransport : ApiOutcome Unit
  historyTransport : ApiOutcome HistoryResp
  deriving Repr

/-- Result of the upload-file handler promise. -/
inductive UploadOutcome where
  | thrown (msg : String)
  | returnedFalse
  | returnedTrue
  deriving DecidableEq, Repr

/-- The handler's response.code check (main.js line 1238): true only when the
resolved value is a data object whose code is 200; an error object or the
boolean false has no code field, so the comparison with 200 fails. -/
def respCodeOk : CallApiResult PresignResp → Bool
  | CallApiResult.respData r => r.code == 200
  | _ => false

/-- presignUrl extracted from the resolved presign value (main.js line 1242);
only consulted after respCodeOk. -/
def presignUrlOf : CallApiResult PresignResp → String
  | CallApiResult.respData r => r.presignUrl
  | _ => ""

/-- The handler's saveHistoryResponse success check (main.js line 1269): true
only when the resolved value is a data object with success true. -/
def historySuccess : CallApiResult HistoryResp → Bool
  | CallApiResult.respData h => h.success
  | _ => false

/-- upload-file handler (main.js lines 1212-1286). A rejected callApi promise
would propagate to the handler's catch and rethrow; since callApi always
resolves, those branches are unreachable. The PUT transfer's resolved value
is bound and discarded, exactly as in the source. The local file is deleted
(lines 1273-1280) whenever the presign code was 200 and the history call
reported success. -/
def uploadFile (filePath : String) (env : UploadEnv) (fs0 : Fs) : UploadOutcome × Fs :=
  if !fsExists fs0 filePath then (UploadOutcome.thrown ("File not found: " ++ filePath), fs0)
  else
    match callApi env.apiUploadUrl env.uploadApi env.presignTransport with
    | Except.error e => (UploadOutcome.thrown e, fs0)
    | Except.ok presign =>
      if !respCodeOk presign then (UploadOutcome.returnedFalse, fs0)
      else
        match callApi "" (presignUrlOf presign) env.putTransport with
        | Except.error e => (UploadOutcome.thrown e, fs0)
        | Except.ok _putResult =>
          match callApi env.apiUrl env.saveHistoryApi env.historyTransport with
          | Except.error e => (UploadOutcome.thrown e, fs0)
          | Except.ok hist =>
            if !historySuccess hist then (UploadOutcome.returnedFalse, fs0)
            else (UploadOutcome.returnedTrue, fsDelete fs0 filePath)

/-
AudioCapturePipeline (src/renderer.js): startRecording (lines 38-179) and
stopRecording (lines 181-285), driven by the start-recording and
stop-recording signals. Chunks are modelled by their byte sizes.
-/

/-- IPC requests the renderer can issue. -/
inductive IpcCall where
  | getSources
  | saveFile
  | uploadFile
  deriving DecidableEq, Repr

/-- Observable renderer events: IPC requests and error-log records. -/
inductive RendererEvent where
  | ipc (c : IpcCall)
  | errorLogged (msg : String)
  deriving DecidableEq, Repr

/-- Renderer pipeline state: the recording flag, the accumulated chunk sizes,
and whether a MediaRecorder instance is live (combinedRecorder non-null). -/
structure RendererState where
  recording : Bool
  audioChunks : List Nat
  recorderActive : Bool
  deriving DecidableEq, Repr

/-- Capture environment of one startRecording run: whether the microphone
stream was granted, whether a whole-screen source was found, whether its
stream was granted and carried an audio track, and the first supported
MIME type of the candidate list (none when the runtime supports none). -/
structure CaptureEnv where
  micStreamOk : Bool
  screenSourceFound : Bool
  systemStreamOk : Bool
  systemHasAudioTrack : Bool
  supportedMime : Option String
  deriving DecidableEq, Repr

/-- micConnected flag as set by renderer.js lines 57-77. -/
def micConnected (env : CaptureEnv) : Bool :=
  env.micStreamOk

/-- systemConnected flag as set by renderer.js lines 80-124: a screen source
was found, its stream was granted, and it carried at least one audio track. -/
def systemConnected (env : CaptureEnv) : Bool :=
  env.screenSourceFound && env.systemStreamOk && env.systemHasAudioTrack

/-- startRecording (renderer.js lines 38-179). Already recording: return with
no effect (lines 39-41). Otherwise the chunk list is cleared, the two source
acquisitions are attempted (each failure only logged), and the run aborts
back to not-recording when both sources failed (lines 127-131) or when no
MIME type is supported (lines 152-156); otherwise a recorder starts. -/
def startRecording (s : RendererState) (env : CaptureEnv) : RendererState × List RendererEvent :=
  if s.recording then (s, [])
  else
    let s1 : RendererState := { s with recording := true, audioChunks := [] }
    let micEvts := if env.micStreamOk then [] else [RendererEvent.errorLogged "Microphone error"]
    let sysEvts := [RendererEvent.ipc IpcCall.getSources] ++
      (if env.screenSourceFound && !env.systemStreamOk then
        [RendererEvent.errorLogged "System audio error"] else [])
    if !micConnected env && !systemConnected env then
      ({ s1 with recording := false },
        micEvts ++ sysEvts ++ [RendererEvent.errorLogged "No audio sources available!"])
    else
      match env.supportedMime with
      | none =>
        ({ s1 with recording := false },
          micEvts ++ sysEvts ++ [RendererEvent.errorLogged "No supported MIME type found!"])
      | some _ =>
        ({ s1 with recorderActive := true }, micEvts ++ sysEvts)

/-- Outcome of the save-file IPC round trip as seen by the renderer. -/
inductive SaveCallSeen where
  | saveThrew (msg : String)
  | saveOk (path : String)
  deriving DecidableEq, Repr

/-- Reset of the module-level variables at renderer.js lines 281-284. -/
def resetRenderer (s : RendererState) : RendererState :=
  { s with audioChunks := [], recorderActive := false }

/-- stopRecording (renderer.js lines 181-285). Not recording: return with no
effect (lines 182-184). With accumulated chunks, the blob is built and the
save-file and upload-file requests are issued in order; a throw from either
is caught and logged (lines 273-275). With zero chunks, only an error is
recorded (line 277). The uploadSeen argument is none when the upload resolved
and some message when it rejected. -/
def stopRecording (s : RendererState) (saveSeen : SaveCallSeen)
    (uploadSeen : Option String) : RendererState × List RendererEvent :=
  if !s.recording then (s, [])
  else
    let s1 : RendererState := { s with recording := false }
    if 0 < s1.audioChunks.length then
      let blobSize := s1.audioChunks.foldl Nat.add 0
      if blobSize == 0 then
        (resetRenderer s1, [RendererEvent.errorLogged "Blob is empty"])
      else
        match saveSeen with
        | SaveCallSeen.saveThrew m =>
          (resetRenderer s1, [RendererEvent.ipc IpcCall.saveFile, RendererEvent.errorLogged m])
        | SaveCallSeen.saveOk _p =>
          match uploadSeen with
          | some m =>
            (resetRenderer s1,
              [RendererEvent.ipc IpcCall.saveFile, RendererEvent.ipc IpcCall.uploadFile,
                RendererEvent.errorLogged m])
          | none =>
            (resetRenderer s1,
              [RendererEvent.ipc IpcCall.saveFile, RendererEvent.ipc IpcCall.uploadFile])
    else
      (resetRenderer s1, [RendererEvent.errorLogged "stopRecording: No audio data available!"])

/-- Event predicate: the event is the save-file request. -/
def isSaveCall : RendererEvent → Bool
  | RendererEvent.ipc IpcCall.saveFile => true
  | _ => false

/-- Event predicate: the event is the upload-file request. -/
def isUploadCall : RendererEvent → Bool
  | RendererEvent.ipc IpcCall.uploadFile => true
  | _ => false

/-- Event predicate: the event is an error-log record. -/
def isErrorEvent : RendererEvent → Bool
  | RendererEvent.errorLogged _ => true
  | _ => false

/-
Hot-reloadable configuration (src/main.js): loadConfigFiles (lines 172-234),
setupConfigFileWatcher (lines 240-267), and the wiring inside app.whenReady
(lines 1288-1302), where the call to setupConfigFileWatcher is commented out
and the config file is read once by a one-shot five-second timer.
-/

/-- Persistent module-level variables read by loadConfigFiles. -/
structure InstallConfig where
  installThreshold : Option Int
  installNameCode : Option (List Char)
  deriving DecidableEq, Repr

/-- Threshold value a single config line contributes: the line must trim to a
non-empty non-comment key=value pair with key MEMORY_CALL_THRESHOLD_KB and an
integer-parseable value (main.js lines 184-208). -/
def lineThresholdValue (line : List Char) : Option Int :=
  let t := trimChars line
  if t.isEmpty then none
  else if startsWithChars "#".data t then none
  else
    match splitOnCharSep '=' t with
    | [] => none
    | [_] => none
    | k :: rest =>
      if trimChars k == "MEMORY_CALL_THRESHOLD_KB".data then
        jsParseInt (trimChars (List.intercalate ['='] rest))
      else none

/-- Name code a single config line contributes (main.js lines 210-213). -/
def lineNameCodeValue (line : List Char) : Option (List Char) :=
  let t := trimChars line
  if t.isEmpty then none
  else if startsWithChars "#".data t then none
  else
    match splitOnCharSep '=' t with
    | [] => none
    | [_] => none
    | k :: rest =>
      if trimChars k == "NAME_CODE".data then
        some (trimChars (List.intercalate ['='] rest))
      else none

/-- One iteration of the line loop of loadConfigFiles (main.js lines 184-214):
each key found overwrites the corresponding module-level variable. -/
def parseConfigLine (acc : InstallConfig) (line : List Char) : InstallConfig :=
  { installThreshold :=
      match lineThresholdValue line with
      | some v => some v
      | none => acc.installThreshold
    installNameCode :=
      match lineNameCodeValue line with
      | some v => some v
      | none => acc.installNameCode }

/-- The full line scan of one config-file content. -/
def scanConfig (content : String) (acc : InstallConfig) : InstallConfig :=
  (splitOnCharSep '\n' content.data).foldl parseConfigLine acc

/-- Threshold that a content string supplies on its own (scan from empty
state): the last valid MEMORY_CALL_THRESHOLD_KB assignment in the file. -/
def configThreshold (content : String) : Option Int :=
  (scanConfig content { installThreshold := none, installNameCode := none }).installThreshold

/-- Main-process configuration state: the persistent install values plus the
live MEMORY_CALL_THRESHOLD_KB global. -/
structure MainCfg where
  install : InstallConfig
  threshold : Int
  deriving DecidableEq, Repr

/-- loadConfigFiles (main.js lines 172-234): when the file exists its lines
are scanned into the install variables; afterwards the live threshold becomes
the install value when one was ever read, else the fallback. The source's
guard that skips a redundant fallback assignment changes no value. -/
def loadConfigFiles (fileContent : Option String) (fallback : Int) (st : MainCfg) : MainCfg :=
  let ic :=
    match fileContent with
    | none => st.install
    | some content => scanConfig content st.install
  match ic.installThreshold with
  | some v => { install := ic, threshold := v }
  | none => { install := ic, threshold := fallback }

/-- Whether app.whenReady installs the config-file watcher: the call to
setupConfigFileWatcher at main.js line 1290 is commented out, so it does not.
Were it active, the fs.watchFile callback (lines 249-254) would run
loadConfigFiles on every creation or modification of the file. -/
def whenReadySetsUpWatcher : Bool := false

/-- Observable main-process state for the config round trip: the current
content of config.txt (none when absent) and the configuration state. -/
structure AppState where
  fileContent : Option String
  cfg : MainCfg
  deriving DecidableEq, Repr

/-- Events of the config lifecycle: the one-shot five-second startup load
(main.js lines 1291-1293) and an external modification of config.txt. -/
inductive AppEvent where
  | startupLoadTimer
  | configFileModified (newContent : String)
  deriving DecidableEq, Repr

/-- Event handler: the startup timer always reloads; a file modification
updates the content and triggers a reload only when the watcher was
installed (the fs.watchFile callback of setupConfigFileWatcher). -/
def handleAppEvent (fallback : Int) (watcher : Bool) (s : AppState) : AppEvent → AppState
  | AppEvent.startupLoadTimer =>
    { s with cfg := loadConfigFiles s.fileContent fallback s.cfg }
  | AppEvent.configFileModified c =>
    let s1 : AppState := { s with fileContent := some c }
    if watcher then { s1 with cfg := loadConfigFiles s1.fileContent fallback s1.cfg }
    else s1

/-- Run of the main process over a sequence of config-lifecycle events. -/
def runApp (fallback : Int) (watcher : Bool) (s : AppState) (evs : List AppEvent) : AppState :=
  evs.foldl (fun st e => handleAppEvent fallback watcher st e) s

/-- Threshold component of one config-line step, extracted for reasoning
about the line scan. -/
def thresholdStep (acc : Option Int) (line : List Char) : Option Int :=
  match lineThresholdValue line with
  | some v => some v
  | none => acc

/-
Helper lemmas shared by the claim theorems.
-/

/-- Deleting a path removes it from the modelled file system. -/
theorem fsExists_fsDelete (fs : Fs) (p : String) : fsExists (fsDelete fs p) p = false := by
  induction fs with
  | nil => rfl
  | cons e fs ih =>
    by_cases h : (e.1 == p) = true
    · simp only [fsDelete, fsExists, List.filter] at ih ⊢
      simp [h, ih]
    · simp only [Bool.not_eq_true] at h
      simp only [fsDelete, fsExists, List.filter] at ih ⊢
      simp [h, ih]

/-- A threshold scan started from any accumulator agrees with the scan
started from none whenever the latter found a value. -/
theorem foldl_thresholdStep_indep (ls : List (List Char)) (b : Option Int) :
    ls.foldl thresholdStep b =
      match ls.foldl thresholdStep none with
      | some v => some v
      | none => b := by
  induction ls generalizing b with
  | nil => rfl
  | cons l ls ih =>
    show (ls.foldl thresholdStep (thresholdStep b l)) = _
    rw [ih (thresholdStep b l)]
    conv_rhs => rw [show List.foldl thresholdStep none (l :: ls) = ls.foldl thresholdStep (thresholdStep none l) from rfl]
    rw [ih (thresholdStep none l)]
    cases hk : ls.foldl thresholdStep none with
    | some v => rfl
    | none =>
      unfold thresholdStep
      cases lineThresholdValue l <;> rfl

/-- The installThreshold component of the full config scan is exactly the
threshold scan. -/
theorem scan_installThreshold (ls : List (List Char)) (a : InstallConfig) :
    (ls.foldl parseConfigLine a).installThreshold =
      ls.foldl thresholdStep a.installThreshold := by
  induction ls generalizing a with
  | nil => rfl
  | cons l ls ih =>
    show (ls.foldl parseConfigLine (parseConfigLine a l)).installThreshold = _
    rw [ih (parseConfigLine a l)]
    rfl

/-- After a reload of a file content that supplies a valid threshold, the
live threshold equals that value. -/
theorem loadConfigFiles_applies_threshold (content : String) (fallback v : Int)
    (st : MainCfg) (h : configThreshold content = some v) :
    (loadConfigFiles (some content) fallback st).threshold = v := by
  have hscan : (scanConfig content st.install).installThreshold = some v := by
    unfold configThreshold at h
    simp only [scanConfig, scan_installThreshold] at h ⊢
    rw [foldl_thresholdStep_indep _ st.install.installThreshold, h]
  simp only [loadConfigFiles]
  rw [hscan]

/-
Claim theorems.
-/

/-- Claim C2: the in-call classification returns InCall exactly when the
sampled memory is strictly greater than the threshold, and a sample equal to
the threshold is classified as not in call (exclusive boundary). -/
theorem classify_inCall_iff_memory_gt_threshold (m t : Int) :
    (checkZaloCallStatusMemory m t = true ↔ m > t) ∧
    checkZaloCallStatusMemory t t = false ∧
    (classify true m t = CallState.InCall ↔ m > t) ∧
    classify true t t = CallState.Idle := by
  refine ⟨by simp [checkZaloCallStatusMemory], by simp [checkZaloCallStatusMemory], ?_, ?_⟩
  · by_cases h : m > t <;> simp [classify, checkZaloCallStatusMemory, h]
  · simp [classify, checkZaloCallStatusMemory]

/-- Claim C4: convertToMP3 resolves with the output path exactly when the
input file existed with non-zero size, the tool binary was present, the tool
ran without error, and the output file exists with non-zero size afterwards;
in every other case the promise rejects with an error. -/
theorem convert_succeeds_iff_all_checks_pass (i o : String) (w : ConvWorld) :
    (convertToMP3 i o w = ConvResult.resolved o ↔
      (w.inputExists = true ∧ 0 < w.inputSize ∧ w.ffmpegExists = true ∧
        w.execOk = true ∧ w.outputExistsAfter = true ∧ 0 < w.outputSizeAfter)) ∧
    (convertToMP3 i o w = ConvResult.resolved o ∨
      ∃ msg, convertToMP3 i o w = ConvResult.rejected msg) := by
  rcases w with ⟨ie, isz, ff, ex, oe, osz⟩
  unfold convertToMP3
  cases ie <;> cases ff <;> cases ex <;> cases oe <;>
    by_cases h1 : isz = 0 <;> by_cases h2 : osz = 0 <;>
    simp [h1, h2, Nat.pos_of_ne_zero]

/-- Claim C10: callApi always resolves, never rejects; on a transport error
it resolves with the error object itself, so a caller that ignores the
resolved value cannot distinguish failure from success. -/
theorem callApi_always_resolves (apiUrl endpoint e : String) (t : ApiOutcome Nat) :
    (∃ r, callApi apiUrl endpoint t = Except.ok r) ∧
    (isFullUrl endpoint = true →
      callApi apiUrl endpoint (ApiOutcome.transportError e : ApiOutcome Nat) =
        Except.ok (CallApiResult.errorObject e)) := by
  constructor
  · unfold callApi axiosRequest
    by_cases h : (!isFullUrl endpoint && apiUrlInvalid apiUrl) = true <;>
      cases t <;> simp [h]
  · intro h
    unfold callApi axiosRequest
    simp [h]

/-- Witness for claim C10 at a concrete full-URL endpoint and transport
error. -/
theorem callApi_always_resolves_witness :
    callApi "" "https://bucket.example/key"
        (ApiOutcome.transportError "ECONNRESET" : ApiOutcome Nat) =
      Except.ok (CallApiResult.errorObject "ECONNRESET") :=
  (callApi_always_resolves "" "https://bucket.example/key" "ECONNRESET"
    (ApiOutcome.transportError "ECONNRESET")).2 (by decide)

/-- Claim C3: a stop of the capture pipeline with zero accumulated chunks
records a failure and issues neither the save-file nor the upload-file
request. -/
theorem stop_with_zero_chunks_skips_save_and_upload (s : RendererState)
    (saveSeen : SaveCallSeen) (uploadSeen : Option String)
    (hrec : s.recording = true) (hchunks : s.audioChunks = []) :
    (stopRecording s saveSeen uploadSeen).2.any isSaveCall = false ∧
    (stopRecording s saveSeen uploadSeen).2.any isUploadCall = false ∧
    (stopRecording s saveSeen uploadSeen).2.any isErrorEvent = true := by
  unfold stopRecording
  simp [hrec, hchunks, isSaveCall, isUploadCall, isErrorEvent]

/-- Witness for claim C3: a recording state with no accumulated chunks. -/
theorem stop_with_zero_chunks_skips_save_and_upload_witness :
    (stopRecording ⟨true, [], true⟩ (SaveCallSeen.saveOk "p") none).2.any isSaveCall = false ∧
    (stopRecording ⟨true, [], true⟩ (SaveCallSeen.saveOk "p") none).2.any isUploadCall = false ∧
    (stopRecording ⟨true, [], true⟩ (SaveCallSeen.saveOk "p") none).2.any isErrorEvent = true :=
  stop_with_zero_chunks_skips_save_and_upload ⟨true, [], true⟩ (SaveCallSeen.saveOk "p") none
    rfl rfl

/-- Claim C8: a start signal while already capturing and a stop signal while
not capturing both leave the pipeline state unchanged and produce no events
(no source acquisition, no recorder, no error). -/
theorem start_stop_signals_idempotent (s : RendererState) (env : CaptureEnv)
    (saveSeen : SaveCallSeen) (uploadSeen : Option String) :
    (s.recording = true → startRecording s env = (s, [])) ∧
    (s.recording = false → stopRecording s saveSeen uploadSeen = (s, [])) := by
  constructor
  · intro h
    unfold startRecording
    simp [h]
  · intro h
    unfold stopRecording
    simp [h]

/-- Witness for claim C8 at concrete already-recording and not-recording
states. -/
theorem start_stop_signals_idempotent_witness :
    startRecording ⟨true, [3], true⟩ ⟨true, true, true, true, some "audio/webm"⟩ =
      (⟨true, [3], true⟩, []) ∧
    stopRecording ⟨false, [3], false⟩ (SaveCallSeen.saveOk "p") none =
      (⟨false, [3], false⟩, []) :=
  ⟨(start_stop_signals_idempotent ⟨true, [3], true⟩ ⟨true, true, true, true, some "audio/webm"⟩
      (SaveCallSeen.saveOk "p") none).1 rfl,
    (start_stop_signals_idempotent ⟨false, [3], false⟩ ⟨true, true, true, true, some "audio/webm"⟩
      (SaveCallSeen.saveOk "p") none).2 rfl⟩

/-- Claim C6: when the process-table lookup fails — the query tool errors,
no row matches the target process, or the memory value fails to parse — the
samplers return a zero sample (memoryKB 0, cpuPercent 0) instead of failing
the caller. -/
theorem sampler_failure_yields_zero_sample :
    (checkZaloMemory none = 0) ∧
    (∀ out : String, (splitOnCharSep '\n' out.data).find? lineMatchesZalo = none →
      checkZaloMemory (some out) = 0) ∧
    (∀ (out : String) (line : List Char),
      (splitOnCharSep '\n' out.data).find? lineMatchesZalo = some line →
      jsParseInt (stripCommasK (memUsageField line)) = none →
      checkZaloMemory (some out) = 0) ∧
    (checkZaloCPU none = 0) ∧
    (∀ out : String, (splitOnCharSep '\n' (trimChars out.data)).length < 3 →
      checkZaloCPU (some out) = 0) := by
  refine ⟨rfl, ?_, ?_, rfl, ?_⟩
  · intro out h
    simp only [checkZaloMemory]
    rw [h]
  · intro out line h1 h2
    simp only [checkZaloMemory, h1, h2]
  · intro out h
    simp only [checkZaloCPU]
    rw [if_neg (Nat.not_le.mpr h)]

/-- Witness for claim C6: a row-less process listing, a row whose memory
column does not parse, and a tool-error output with a single line. -/
theorem sampler_failure_yields_zero_sample_witness :
    checkZaloMemory (some "INFO: No tasks are running.") = 0 ∧
    checkZaloMemory (some "ZaloCall.exe 1234 Console 1 N/A") = 0 ∧
    checkZaloCPU (some "Error: no valid counters.") = 0 :=
  ⟨sampler_failure_yields_zero_sample.2.1 "INFO: No tasks are running." (by decide),
    sampler_failure_yields_zero_sample.2.2.1 "ZaloCall.exe 1234 Console 1 N/A"
      "ZaloCall.exe 1234 Console 1 N/A".data (by decide) (by decide),
    sampler_failure_yields_zero_sample.2.2.2.2 "Error: no valid counters." (by decide)⟩

/-- Claim C9: every save-file invocation that passes payload validation (and
thus reaches the conversion step) ends with the temporary webm file deleted,
whether the conversion succeeded or failed; when the handler returns
success, the converted mp3 file is present. -/
theorem temp_webm_always_deleted (tempPath mp3Path : String) (env : SaveEnv) (fs0 : Fs)
    (hv : env.dataUrlValid = true) (hb : env.hasBase64Payload = true)
    (hn : 0 < env.bufferLen) :
    fsExists (saveFile tempPath mp3Path env fs0).2 tempPath = false ∧
    (∀ n, (saveFile tempPath mp3Path env fs0).1 = SaveOutcome.saved mp3Path n →
      fsExists (saveFile tempPath mp3Path env fs0).2 mp3Path = true) := by
  unfold saveFile
  rw [if_neg (by simp [hv]), if_neg (by simp [hb]),
    if_neg (by simp [Nat.pos_iff_ne_zero.mp hn])]
  cases hconv : convertToMP3 tempPath mp3Path
      (convWorldOf (fsWrite fs0 tempPath env.bufferLen) tempPath env) with
  | rejected m =>
    refine ⟨fsExists_fsDelete _ _, ?_⟩
    intro n hcontr
    exact absurd hcontr (by simp)
  | resolved p =>
    by_cases hex :
        fsExists (fsDelete (fsAfterConv tempPath mp3Path env fs0) tempPath) mp3Path = true
    · rw [if_pos hex]
      exact ⟨fsExists_fsDelete _ _, fun n _ => hex⟩
    · rw [if_neg hex]
      refine ⟨fsExists_fsDelete _ _, ?_⟩
      intro n hcontr
      exact absurd hcontr (by simp)

/-- Witness for claim C9 at a concrete valid payload with a successful
conversion. -/
theorem temp_webm_always_deleted_witness :
    fsExists (saveFile "call.webm" "call.mp3"
      ⟨true, true, 10, true, some (some 5)⟩ []).2 "call.webm" = false :=
  (temp_webm_always_deleted "call.webm" "call.mp3"
    ⟨true, true, 10, true, some (some 5)⟩ [] rfl rfl (by decide)).1

/-- Claim C5 counterexample: a capture start in which both audio sources
connect successfully yet the session is still aborted (no recorder started,
pipeline back in the not-recording state) because no encoding MIME type is
supported — so abort is not equivalent to the failure of both sources. -/
theorem start_abort_without_double_source_failure :
    micConnected ⟨true, true, true, true, none⟩ = true ∧
    systemConnected ⟨true, true, true, true, none⟩ = true ∧
    (startRecording ⟨false, [], false⟩ ⟨true, true, true, true, none⟩).1.recording = false ∧
    (startRecording ⟨false, [], false⟩ ⟨true, true, true, true, none⟩).1.recorderActive = false := by
  refine ⟨rfl, rfl, ?_, ?_⟩ <;> rfl

/-- Claim C5 (amended): on a capture start from the not-recording state, the
failure of both sources always aborts the session; a session with at least
one connected source proceeds provided some encoding MIME type is supported;
and the absence of any supported MIME type also aborts, even when a source
connected. -/
theorem start_abort_conditions (s : RendererState) (env : CaptureEnv)
    (h : s.recording = false) :
    (micConnected env = false ∧ systemConnected env = false →
      (startRecording s env).1.recording = false ∧
      (startRecording s env).1.recorderActive = s.recorderActive) ∧
    (env.supportedMime = none → (startRecording s env).1.recording = false) ∧
    ((micConnected env = true ∨ systemConnected env = true) →
      env.supportedMime.isSome = true →
      (startRecording s env).1.recording = true ∧
      (startRecording s env).1.recorderActive = true) := by
  obtain ⟨mic, sf, ss, st, mime⟩ := env
  cases mic <;> cases sf <;> cases ss <;> cases st <;> cases mime <;>
    simp [startRecording, micConnected, systemConnected, h]

/-- Witness for claim C5 (amended): both sources failing aborts; a single
connected source with a supported MIME type proceeds. -/
theorem start_abort_conditions_witness :
    (startRecording ⟨false, [], false⟩ ⟨false, false, false, false, some "audio/webm"⟩).1.recording
      = false ∧
    (startRecording ⟨false, [], false⟩ ⟨true, false, false, false, some "audio/webm"⟩).1.recording
      = true :=
  ⟨((start_abort_conditions ⟨false, [], false⟩ ⟨false, false, false, false, some "audio/webm"⟩
      rfl).1 ⟨rfl, rfl⟩).1,
    ((start_abort_conditions ⟨false, [], false⟩ ⟨true, false, false, false, some "audio/webm"⟩
      rfl).2.2 (Or.inl rfl) rfl).1⟩

/-- Claim C7 counterexample: a valid threshold (200000) written to the config
file after startup is never observed — the final live threshold stays at the
startup value (100000) — because app.whenReady does not install the config
file watcher (the setupConfigFileWatcher call is commented out), even though
the written content parses to a valid threshold. -/
theorem config_modification_never_observed :
    configThreshold "MEMORY_CALL_THRESHOLD_KB=200000" = some 200000 ∧
    (runApp 100000 whenReadySetsUpWatcher
      { fileContent := none, cfg := { install := ⟨none, none⟩, threshold := 100000 } }
      [AppEvent.startupLoadTimer,
        AppEvent.configFileModified "MEMORY_CALL_THRESHOLD_KB=200000"]).cfg.threshold
      = 100000 ∧
    (100000 : Int) ≠ 200000 := by
  refine ⟨by decide, by decide, by decide⟩

/-- Claim C7 (amended): a valid threshold written to the config file is
applied by the very reload that the watcher callback would run on the file
modification, and would therefore be observed within one reload cycle had
app.whenReady installed the watcher; in the shipped wiring the watcher is
not installed, so a modification event leaves the configuration state
entirely unchanged and the value is never observed. -/
theorem threshold_observed_only_via_watcher (fallback v : Int) (s : AppState)
    (content : String) (h : configThreshold content = some v) :
    (handleAppEvent fallback true s (AppEvent.configFileModified content)).cfg.threshold = v ∧
    (handleAppEvent fallback whenReadySetsUpWatcher s
      (AppEvent.configFileModified content)).cfg = s.cfg := by
  constructor
  · simp only [handleAppEvent, if_pos rfl]
    exact loadConfigFiles_applies_threshold content fallback v s.cfg h
  · rfl

/-- Witness for claim C7 (amended) at a concrete config content. -/
theorem threshold_observed_only_via_watcher_witness :
    (handleAppEvent 100000 true
      { fileContent := none, cfg := { install := ⟨none, none⟩, threshold := 100000 } }
      (AppEvent.configFileModified "MEMORY_CALL_THRESHOLD_KB=200000")).cfg.threshold
      = 200000 :=
  (threshold_observed_only_via_watcher 100000 200000
    { fileContent := none, cfg := { install := ⟨none, none⟩, threshold := 100000 } }
    "MEMORY_CALL_THRESHOLD_KB=200000" (by decide)).1

/-- Claim C1: the upload handler deletes the local converted file even when
the binary transfer to the presigned destination failed, because the PUT is
issued through callApi, which resolves with the error object instead of
rejecting, and the handler never inspects that resolved value: with a
presign response of code 200, a failed PUT transfer, and a successful
history commit, the handler reports success and the local file is gone. -/
theorem upload_put_failure_still_deletes :
    (uploadFile "/rec/call.mp3"
      { apiUploadUrl := "https://upload.example", uploadApi := "functions/v1/upload",
        apiUrl := "https://api.example", saveHistoryApi := "functions/v1/history",
        presignTransport :=
          ApiOutcome.ok ⟨200, "https://bucket.example/key", "https://pub.example/key"⟩,
        putTransport := ApiOutcome.transportError "ECONNRESET",
        historyTransport := ApiOutcome.ok ⟨true⟩ }
      [("/rec/call.mp3", 2048)]).1 = UploadOutcome.returnedTrue ∧
    fsExists (uploadFile "/rec/call.mp3"
      { apiUploadUrl := "https://upload.example", uploadApi := "functions/v1/upload",
        apiUrl := "https://api.example", saveHistoryApi := "functions/v1/history",
        presignTransport :=
          ApiOutcome.ok ⟨200, "https://bucket.example/key", "https://pub.example/key"⟩,
        putTransport := ApiOutcome.transportError "ECONNRESET",
        historyTransport := ApiOutcome.ok ⟨true⟩ }
      [("/rec/call.mp3", 2048)]).2 "/rec/call.mp3" = false := by
  refine ⟨by decide, by decide⟩

end ZaloRec
